import Mathlib

/-!
Verification of the openclaw-langcache gateway specification.

The repository ships a policy-enforcing gateway between an agent and a remote
semantic cache.  The gateway components (content classifier, threshold
resolver, cache client, policy gateway) live in skill files that are not part
of the source tree; they are modelled here from the specification.  The
postinstall script (scripts/postinstall.js) is part of the source tree and is
embedded directly.
-/

namespace LangCache

/-- Boolean test that the first character list is a prefix of the second. -/
def startsWithChars : List Char → List Char → Bool
  | [], _ => true
  | _ :: _, [] => false
  | p :: ps, c :: cs => p == c && startsWithChars ps cs

/-- Boolean test that the first character list occurs contiguously inside the
second. -/
def infixChars (pat : List Char) : List Char → Bool
  | [] => startsWithChars pat []
  | c :: cs => startsWithChars pat (c :: cs) || infixChars pat cs

/-- ASCII lower-casing of one character. -/
def lowerChar (c : Char) : Char :=
  if 'A' ≤ c && c ≤ 'Z' then Char.ofNat (c.toNat + 32) else c

/-- The characters of a string, ASCII lower-cased. -/
def lowerData (s : String) : List Char :=
  s.data.map lowerChar

/-- Case-insensitive substring test: does `text` contain `pat`?  The spec
requires case-insensitive matching for all hard-block patterns. -/
def containsCI (text pat : String) : Bool :=
  infixChars (lowerData pat) (lowerData text)

/-- Modelled from the spec: the classifier itself ships in skill files missing
from the source tree.  Credential hard-block markers: key/token/password/OTP/2FA
markers (the long high-entropy token heuristic is represented by the keyword
markers that accompany such tokens). -/
def credentialPatterns : List String :=
  ["api_key", "api key", "apikey", "password", "passwd", "token", "secret",
   "otp", "2fa", "credential"]

/-- Modelled from the spec: temporal hard-block markers, relative and absolute
time references, deadline and appointment phrasing, relative durations. -/
def temporalPatterns : List String :=
  ["today", "tomorrow", "yesterday", "deadline", "appointment", "remind me",
   "in 20 minutes", "calendar", "eta "]

/-- Modelled from the spec: relational references for the personal-context
category. -/
def relationalPatterns : List String :=
  ["my wife", "my husband", "my manager", "my boss", "my friend", "my mom",
   "my dad"]

/-- Modelled from the spec: disclosure verbs that combine with a relational
reference to form a personal-context block. -/
def disclosureVerbs : List String :=
  ["said", "told", "mentioned", "confided", "texted"]

/-- Modelled from the spec: explicit markers of private conversation. -/
def privateMarkers : List String :=
  ["private conversation", "between us", "in confidence"]

/-- An at-sign followed later by a dot: the email-address-syntax heuristic of
the identifier category, modelled from the spec words. -/
def emailLike : List Char → Bool
  | [] => false
  | c :: cs => (c == '@' && cs.any (fun d => d == '.')) || emailLike cs

/-- Length of the longest run of consecutive digits (`cur` is the current run,
`best` the best seen so far). -/
def digitRun : List Char → Nat → Nat → Nat
  | [], cur, best => max cur best
  | c :: cs, cur, best =>
      if c.isDigit then digitRun cs (cur + 1) (max (cur + 1) best)
      else digitRun cs 0 (max cur best)

/-- Phone-number-syntax heuristic: a run of at least seven digits. -/
def phoneLike (cs : List Char) : Bool :=
  7 ≤ digitRun cs 0 0

/-- Hexadecimal digit test used by the UUID heuristic. -/
def hexChar (c : Char) : Bool :=
  c.isDigit || ('a' ≤ c && c ≤ 'f') || ('A' ≤ c && c ≤ 'F')

/-- UUID-syntax heuristic: eight hexadecimal characters followed by a dash. -/
def uuidLike : List Char → Bool
  | a :: b :: c :: d :: e :: f :: g :: h :: i :: rest =>
      (hexChar a && hexChar b && hexChar c && hexChar d && hexChar e &&
        hexChar f && hexChar g && hexChar h && i == '-')
      || uuidLike (b :: c :: d :: e :: f :: g :: h :: i :: rest)
  | _ => false

/-- Modelled from the spec: credential category match. -/
def matchesCredential (t : String) : Bool :=
  credentialPatterns.any (containsCI t)

/-- Modelled from the spec: identifier category match — email syntax, phone
syntax, UUID syntax. -/
def matchesIdentifier (t : String) : Bool :=
  emailLike (lowerData t) || phoneLike (lowerData t) || uuidLike (lowerData t)

/-- Modelled from the spec: temporal category match. -/
def matchesTemporal (t : String) : Bool :=
  temporalPatterns.any (containsCI t)

/-- Modelled from the spec: personal-context category match — a relational
reference combined with a disclosure verb, or an explicit private marker. -/
def matchesPersonal (t : String) : Bool :=
  (relationalPatterns.any (containsCI t) && disclosureVerbs.any (containsCI t))
    || privateMarkers.any (containsCI t)

/-- The four hard-block categories. -/
inductive BlockCategory where
  | temporal
  | credential
  | identifier
  | personal_context
deriving DecidableEq

/-- The verdict returned by the content classifier. -/
structure ClassificationVerdict where
  blocked : Bool
  category : Option BlockCategory
  matchedRule : String
deriving DecidableEq

/-- Modelled from the spec: `classify` evaluates the four hard-block categories
in the fixed priority order credential > identifier > temporal >
personal_context; the first match wins, and no match yields an unblocked
verdict. -/
def classify (text : String) : ClassificationVerdict :=
  if matchesCredential text then ⟨true, some .credential, "credential"⟩
  else if matchesIdentifier text then ⟨true, some .identifier, "identifier"⟩
  else if matchesTemporal text then ⟨true, some .temporal, "temporal"⟩
  else if matchesPersonal text then ⟨true, some .personal_context, "personal_context"⟩
  else ⟨false, none, ""⟩

/-- The whitelist categories of cacheable content. -/
inductive WhitelistCategory where
  | factual_qa
  | definition_docs
  | command_explanation
  | reply_template
  | style_transform
  | unclassified
deriving DecidableEq

/-- The fixed category-to-threshold table of the spec. -/
def thresholdOf : WhitelistCategory → ℚ
  | .factual_qa => 0.90
  | .definition_docs => 0.90
  | .command_explanation => 0.92
  | .reply_template => 0.88
  | .style_transform => 0.85
  | .unclassified => 0.90

/-- Modelled from the spec: question-word openings that mark factual Q&A. -/
def questionWords : List String :=
  ["what", "how", "why", "who", "where", "which"]

/-- Modelled from the spec: imperative style-edit verbs marking a style
transform. -/
def styleVerbMarkers : List String :=
  ["make this", "make it", "rewrite", "rephrase", "shorten"]

/-- Modelled from the spec: reply-template markers. -/
def replyTemplateMarkers : List String :=
  ["polite no", "follow-up", "intro"]

/-- Modelled from the spec: definition and documentation markers. -/
def definitionMarkers : List String :=
  ["define ", "definition of", "docs for", "documentation"]

/-- Does the text contain a backtick (command-syntax detection)? -/
def hasBacktick (t : String) : Bool :=
  t.data.any (fun c => c == Char.ofNat 96)

/-- Modelled from the spec: the resolver ships in skill files missing from the
source tree.  Lexical and structural heuristics pick a whitelist category:
backticked tokens mark command explanations, question-word openings mark
factual Q&A, style-edit verbs mark style transforms, then reply-template and
definition markers; anything else is unclassified. -/
def resolveCategory (text : String) : WhitelistCategory :=
  if hasBacktick text then .command_explanation
  else if questionWords.any (fun q => startsWithChars q.data (lowerData text)) then .factual_qa
  else if styleVerbMarkers.any (containsCI text) then .style_transform
  else if replyTemplateMarkers.any (containsCI text) then .reply_template
  else if definitionMarkers.any (containsCI text) then .definition_docs
  else .unclassified

/-- Modelled from the spec: `resolve(text, metadata)` is a pure function from
the prompt to its whitelist category and the fixed threshold of that
category. -/
def resolve (text : String) (_metadata : List (String × String)) :
    WhitelistCategory × ℚ :=
  (resolveCategory text, thresholdOf (resolveCategory text))

/-- A cache entry as held by the remote service. -/
structure CacheEntry where
  id : String
  prompt : String
  response : String
  attributes : List (String × String)
  createdAt : Nat
deriving DecidableEq

/-- The remote cache state: the stored entries, a counter from which fresh
entry ids are assigned, and a clock for creation timestamps.  The remote
service owns this state; the gateway is a pass-through mediator. -/
structure RemoteCache where
  entries : List CacheEntry
  nextId : Nat
  clock : Nat
deriving DecidableEq

/-- Does an entry carry every key/value pair of an attribute filter? -/
def attrsMatch (filt : List (String × String)) (e : CacheEntry) : Bool :=
  filt.all (fun kv => e.attributes.contains kv)

/-- Descending-score order on scored entries, used to present search results
in descending similarity order. -/
def scoreGE (a b : CacheEntry × ℚ) : Prop :=
  b.2 ≤ a.2

instance : DecidableRel scoreGE := fun a b =>
  inferInstanceAs (Decidable (b.2 ≤ a.2))

instance : IsTotal (CacheEntry × ℚ) scoreGE :=
  ⟨fun a b => le_total b.2 a.2⟩

instance : IsTrans (CacheEntry × ℚ) scoreGE :=
  ⟨fun _ _ _ h1 h2 => le_trans h2 h1⟩

/-- Modelled from the spec: the remote service behaves as a similarity index
with similarity function `sim`; `search` returns the entries whose similarity
to the query reaches the threshold and pass the attribute filter, in
descending similarity order. -/
def clientSearch (sim : String → String → ℚ) (rc : RemoteCache) (q : String)
    (θ : ℚ) (filt : List (String × String)) : List (CacheEntry × ℚ) :=
  List.insertionSort scoreGE
    ((rc.entries.filter
        (fun e => attrsMatch filt e && decide (θ ≤ sim q e.prompt))).map
      (fun e => (e, sim q e.prompt)))

/-- Modelled from the spec: `store` creates a new entry with a fresh
remote-assigned id and timestamp; it never deduplicates. -/
def clientStore (rc : RemoteCache) (p r : String)
    (attrs : List (String × String)) : String × RemoteCache :=
  let i := "entry-" ++ toString rc.nextId
  (i, ⟨rc.entries ++ [⟨i, p, r, attrs, rc.clock⟩], rc.nextId + 1, rc.clock + 1⟩)

/-- Modelled from the spec: delete by id removes the entries carrying that id
and reports how many were removed (zero for an absent id, not an error). -/
def clientDeleteById (rc : RemoteCache) (i : String) : Nat × RemoteCache :=
  ((rc.entries.filter (fun e => e.id == i)).length,
   { rc with entries := rc.entries.filter (fun e => !(e.id == i)) })

/-- Modelled from the spec: attribute-scoped bulk delete. -/
def clientDeleteByAttrs (rc : RemoteCache) (filt : List (String × String)) :
    Nat × RemoteCache :=
  ((rc.entries.filter (attrsMatch filt)).length,
   { rc with entries := rc.entries.filter (fun e => !(attrsMatch filt e)) })

/-- A request sent to the Cache Client, hence to the network. -/
inductive CacheRequest where
  | searchReq (query : String) (threshold : ℚ) (filt : List (String × String))
  | storeReq (prompt response : String) (attrs : List (String × String))
  | deleteByIdReq (id : String)
  | deleteByAttrsReq (filt : List (String × String))
deriving DecidableEq

/-- Errors raised by the gateway before any network traffic. -/
inductive GatewayError where
  | usageError
deriving DecidableEq

/-- Clamp a rational to the unit interval. -/
def clamp01 (t : ℚ) : ℚ :=
  min (max t 0) 1

/-- Modelled from the spec: an override threshold (search only) is clamped to
[0,1] and then, by the documented default choice, clamped to the category
floor so that it can tighten but never loosen matching. -/
def effectiveThreshold (catFloor : ℚ) : Option ℚ → ℚ
  | none => catFloor
  | some t => max (clamp01 t) catFloor

/-- Outcome of an enforced search: a policy block, or the matches together
with the resolved category and effective threshold. -/
inductive SearchOutcome where
  | blockedOutcome (c : BlockCategory)
  | results (hits : List (CacheEntry × ℚ)) (category : WhitelistCategory)
      (threshold : ℚ)
deriving DecidableEq

/-- Modelled from the spec: `enforcedSearch` classifies the query first and
returns a blocked outcome with no network request when a hard-block category
is detected; otherwise it resolves the category and effective threshold and
delegates one search request to the Cache Client. -/
def enforcedSearch (sim : String → String → ℚ) (rc : RemoteCache) (query : String)
    (overrideThreshold : Option ℚ) (filt : List (String × String)) :
    SearchOutcome × List CacheRequest :=
  match (classify query).category with
  | some c => (.blockedOutcome c, [])
  | none =>
      let cat := (resolve query []).1
      let θ := effectiveThreshold (thresholdOf cat) overrideThreshold
      (.results (clientSearch sim rc query θ filt) cat θ,
       [.searchReq query θ filt])

/-- Outcome of an enforced store: a policy block, or the fresh entry id and the
updated remote state. -/
inductive StoreOutcome where
  | blockedOutcome (c : BlockCategory)
  | stored (id : String) (rc : RemoteCache)
deriving DecidableEq

/-- Name of a whitelist category, attached to stored entries. -/
def categoryName : WhitelistCategory → String
  | .factual_qa => "factual_qa"
  | .definition_docs => "definition_docs"
  | .command_explanation => "command_explanation"
  | .reply_template => "reply_template"
  | .style_transform => "style_transform"
  | .unclassified => "unclassified"

/-- Set a key of an attribute mapping (keys unique). -/
def setAttr (attrs : List (String × String)) (k v : String) :
    List (String × String) :=
  attrs.filter (fun kv => !(kv.1 == k)) ++ [(k, v)]

/-- Modelled from the spec: `enforcedStore` classifies both prompt and
response first and refuses with no network request when either is blocked;
otherwise it attaches the resolved category to the attributes and delegates
one store request to the Cache Client. -/
def enforcedStore (rc : RemoteCache) (prompt response : String)
    (attrs : List (String × String)) : StoreOutcome × List CacheRequest :=
  match (classify prompt).category with
  | some c => (.blockedOutcome c, [])
  | none =>
      match (classify response).category with
      | some c => (.blockedOutcome c, [])
      | none =>
          let cat := (resolve prompt []).1
          let attrs2 := setAttr attrs "category" (categoryName cat)
          let sr := clientStore rc prompt response attrs2
          (.stored sr.1 sr.2, [.storeReq prompt response attrs2])

/-- Modelled from the spec: `enforcedDelete` requires exactly one of the entry
id and the attribute filter; both or neither is a usage error raised before
any network request. -/
def enforcedDelete (rc : RemoteCache) (oid : Option String)
    (filt : Option (List (String × String))) :
    Except GatewayError (Nat × RemoteCache) × List CacheRequest :=
  match oid, filt with
  | some i, none => (.ok (clientDeleteById rc i), [.deleteByIdReq i])
  | none, some f => (.ok (clientDeleteByAttrs rc f), [.deleteByAttrsReq f])
  | _, _ => (.error .usageError, [])

/-- The environment seen by scripts/postinstall.js.  `process.env` values are
strings; an unset variable is modelled as `""`, matching the truthiness tests
of the script, which cannot distinguish unset from empty.  `getuid` is `none`
when `process.getuid` is undefined. -/
structure PostEnv where
  openclawConfigDir : String
  openclawHome : String
  getuid : Option Nat
  homedir : String

/-- Model of path.join on two path segments, for the segment shapes the script
uses. -/
def pathJoin (a b : String) : String :=
  a ++ "/" ++ b

/-- The skill name constant of postinstall.js. -/
def skillName : String :=
  "langcache"

/-- Function getOpenClawPath of postinstall.js (lines 18-40): resolve the skills
directory from `OPENCLAW_CONFIG_DIR`, then `OPENCLAW_HOME`, then the Docker
config mount when running as root, then the home directory default.
`pathEx` is `fs.existsSync`. -/
def getOpenClawPath (pathEx : String → Bool) (env : PostEnv) : String :=
  if env.openclawConfigDir ≠ "" then pathJoin env.openclawConfigDir "skills"
  else if env.openclawHome ≠ "" then pathJoin env.openclawHome "skills"
  else if pathEx "/home/node/.openclaw" && env.getuid == some 0 then
    "/home/node/.openclaw/skills"
  else pathJoin (pathJoin env.homedir ".openclaw") "skills"

/-- A mutating filesystem call made by postinstall.js.  `copyDirAct` stands
for the whole recursive `copyDir` helper (mkdir, file copies and chmod of
shell scripts), treated as one fallible step. -/
inductive FsAction where
  | mkdirAct (p : String)
  | rmAct (p : String)
  | copyDirAct (src dest : String)
deriving DecidableEq

/-- The world postinstall.js acts on: which paths exist (static during the
run), the console messages printed so far, and the trace of mutating
filesystem calls performed so far. -/
structure World where
  pathEx : String → Bool
  msgs : List String
  acts : List FsAction

/-- Model of console.log and console.warn: append a message. -/
def logMsg (w : World) (s : String) : World :=
  { w with msgs := w.msgs ++ [s] }

/-- Perform one mutating filesystem call.  The oracle says whether the call
throws (with which message); a throwing call performs no action. -/
def runAct (oracle : FsAction → Option String) (w : World) (a : FsAction) :
    Except (String × World) World :=
  match oracle a with
  | some e => .error (e, w)
  | none => .ok { w with acts := w.acts ++ [a] }

/-- The source skill directory: `path.join(packageRoot, 'skills', SKILL_NAME)`
(line 69). -/
def srcSkillPath (pkgRoot : String) : String :=
  pathJoin (pathJoin pkgRoot "skills") skillName

/-- Lines 86-98 of postinstall.js: in Docker, try to install to /app/skills,
catching any error locally as a console note. -/
def installAppSkills (oracle : FsAction → Option String) (w : World)
    (srcPath : String) : World × List String :=
  if w.pathEx "/app/skills" then
    let appDest := pathJoin "/app/skills" skillName
    let attempt : Except (String × World) World :=
      (if w.pathEx appDest then runAct oracle w (.rmAct appDest)
       else .ok w).bind
        (fun w1 => runAct oracle w1 (.copyDirAct srcPath appDest))
    match attempt with
    | .ok w2 => (w2, [appDest])
    | .error (e, we) =>
        (logMsg we ("Note: Could not install to /app/skills: " ++ e), [])
  else (w, [])

/-- Lines 100-112 of postinstall.js: in Docker, also try to install to the
persistent config directory, catching any error locally as a console note. -/
def installPersistent (oracle : FsAction → Option String) (w : World)
    (pPath srcPath : String) : World × List String :=
  let pDest := pathJoin pPath skillName
  let attempt : Except (String × World) World :=
    (runAct oracle w (.mkdirAct pPath)).bind (fun w1 =>
      (if w1.pathEx pDest then runAct oracle w1 (.rmAct pDest)
       else .ok w1).bind
        (fun w2 => runAct oracle w2 (.copyDirAct srcPath pDest)))
  match attempt with
  | .ok w3 => (w3, [pDest ++ " (persistent)"])
  | .error (e, we) =>
      (logMsg we ("Note: Could not install to persistent path: " ++ e), [])

/-- Lines 113-127 of postinstall.js: local installation; any error here
escapes to the outer catch of `main`. -/
def installLocal (oracle : FsAction → Option String) (w : World)
    (env : PostEnv) (srcPath : String) :
    Except (String × World) (World × List String) :=
  let skillsPath := getOpenClawPath w.pathEx env
  let destPath := pathJoin skillsPath skillName
  (runAct oracle w (.mkdirAct skillsPath)).bind (fun w1 =>
    (if w1.pathEx destPath then
        runAct oracle (logMsg w1 ("Updating existing " ++ skillName ++ " skill"))
          (.rmAct destPath)
     else .ok w1).bind (fun w2 =>
      (runAct oracle w2 (.copyDirAct srcPath destPath)).map
        (fun w3 => (w3, [destPath]))))

/-- The closing console output of `main` (lines 129-148), abridged to one
message per block. -/
def summaryMsgs (installedPaths : List String) (isDocker : Bool) :
    List String :=
  ["Installed langcache skill to:"] ++ installedPaths ++
    (if isDocker then
      ["Docker installation: skill installed to persistent volume."]
     else []) ++
    ["Configuration: add Redis LangCache credentials and enable the skill."]

/-- The body of `main` inside its outer try (lines 66-149): skip when the
source skill directory is absent, otherwise install along the Docker or the
local path and print the summary. -/
def mainBody (oracle : FsAction → Option String) (env : PostEnv)
    (pkgRoot : String) (w : World) : Except (String × World) World :=
  let srcPath := srcSkillPath pkgRoot
  if w.pathEx srcPath = false then
    .ok (logMsg w ("Source skill not found at " ++ srcPath ++
      ", skipping installation"))
  else
    let isDocker := w.pathEx "/.dockerenv" || w.pathEx "/home/node/.openclaw"
      || !(env.openclawConfigDir == "")
    if isDocker then
      let r1 := installAppSkills oracle w srcPath
      let r2 := installPersistent oracle r1.1
        (getOpenClawPath (r1.1).pathEx env) srcPath
      .ok ((summaryMsgs (r1.2 ++ r2.2) true).foldl logMsg r2.1)
    else
      (installLocal oracle w env srcPath).map
        (fun p => (summaryMsgs p.2 false).foldl logMsg p.1)

/-- Function main of postinstall.js (lines 65-154): run the body and catch every
escaping error as two console warnings. -/
def mainModel (oracle : FsAction → Option String) (env : PostEnv)
    (pkgRoot : String) (w : World) : World :=
  match mainBody oracle env pkgRoot w with
  | .ok w2 => w2
  | .error (e, w2) =>
      logMsg (logMsg w2 ("Warning: Could not install skill: " ++ e))
        "Manually copy from node_modules/openclaw-langcache/skills/"

lemma classify_category_none {t : String} (h : (classify t).blocked = false) :
    (classify t).category = none := by
  unfold classify at h ⊢
  split_ifs at h ⊢
  simp_all

lemma classify_category_some {t : String} (h : (classify t).blocked = true) :
    ∃ c, (classify t).category = some c := by
  unfold classify at h ⊢
  split_ifs at h ⊢ <;> simp_all

lemma thresholdOf_nonneg (c : WhitelistCategory) : 0 ≤ thresholdOf c := by
  cases c <;> norm_num [thresholdOf]

lemma thresholdOf_le_one (c : WhitelistCategory) : thresholdOf c ≤ 1 := by
  cases c <;> norm_num [thresholdOf]

/-- Claim C2: `classify` evaluates the hard-block categories in the fixed priority
order credential > identifier > temporal > personal_context, the first match
wins and short-circuits, and in particular an input matching both a credential
pattern and a temporal pattern classifies as credential. -/
theorem claim_C2 (text : String) :
    (matchesCredential text = true →
      (classify text).category = some .credential) ∧
    (matchesCredential text = false → matchesIdentifier text = true →
      (classify text).category = some .identifier) ∧
    (matchesCredential text = false → matchesIdentifier text = false →
      matchesTemporal text = true →
      (classify text).category = some .temporal) ∧
    (matchesCredential text = false → matchesIdentifier text = false →
      matchesTemporal text = false → matchesPersonal text = true →
      (classify text).category = some .personal_context) ∧
    (matchesCredential text = true → matchesTemporal text = true →
      (classify text).category = some .credential) := by
  refine ⟨?_, ?_, ?_, ?_, ?_⟩
  · intro h1; simp [classify, h1]
  · intro h1 h2; simp [classify, h1, h2]
  · intro h1 h2 h3; simp [classify, h1, h2, h3]
  · intro h1 h2 h3 h4; simp [classify, h1, h2, h3, h4]
  · intro h1 _; simp [classify, h1]

/-- Witness for C2: an input holding both a credential marker and temporal
markers classifies as credential. -/
theorem claim_C2_witness :
    (classify "my api_key is sk-abc123 remind me tomorrow").category =
      some .credential :=
  (claim_C2 "my api_key is sk-abc123 remind me tomorrow").2.2.2.2
    (by decide) (by decide)

/-- Claim C4: the classification verdict satisfies `blocked = false` iff
`category = none`, and any present category is one of the four hard-block
categories. -/
theorem claim_C4 (text : String) :
    ((classify text).blocked = false ↔ (classify text).category = none) ∧
    (∀ c : BlockCategory, (classify text).category = some c →
      c = .temporal ∨ c = .credential ∨ c = .identifier ∨
        c = .personal_context) := by
  constructor
  · unfold classify; split_ifs <;> simp
  · intro c _
    cases c <;> simp

/-- Witness for C4: instantiated at a blocked input whose category is
identifier. -/
theorem claim_C4_witness :
    BlockCategory.identifier = .temporal ∨
    BlockCategory.identifier = .credential ∨
    BlockCategory.identifier = .identifier ∨
    BlockCategory.identifier = .personal_context :=
  (claim_C4 "user@example.com").2 .identifier (by decide)

/-- Claim C3: `resolve` is the fixed category-to-threshold mapping, the two example
prompts resolve as the spec states, and every threshold lies in the unit
interval. -/
theorem claim_C3 :
    (∀ (text : String) (md : List (String × String)),
      resolve text md = (resolveCategory text, thresholdOf (resolveCategory text))) ∧
    thresholdOf .factual_qa = 0.90 ∧
    thresholdOf .definition_docs = 0.90 ∧
    thresholdOf .command_explanation = 0.92 ∧
    thresholdOf .reply_template = 0.88 ∧
    thresholdOf .style_transform = 0.85 ∧
    thresholdOf .unclassified = 0.90 ∧
    resolve "What is Redis?" [] = (.factual_qa, 0.90) ∧
    resolve "Make this shorter" [] = (.style_transform, 0.85) ∧
    (∀ c : WhitelistCategory, 0 ≤ thresholdOf c ∧ thresholdOf c ≤ 1) := by
  refine ⟨fun text md => rfl, rfl, rfl, rfl, rfl, rfl, rfl, rfl, rfl,
    fun c => ⟨thresholdOf_nonneg c, thresholdOf_le_one c⟩⟩

/-- Claim C5: a delete call supplying both the id and the attribute filter, or
neither, fails with a usage error and issues no network request. -/
theorem claim_C5 (rc : RemoteCache) (i : String)
    (f : List (String × String)) :
    enforcedDelete rc (some i) (some f) = (.error .usageError, []) ∧
    enforcedDelete rc none none = (.error .usageError, []) :=
  ⟨rfl, rfl⟩

/-- Claim C7: deleting an id absent from the remote cache succeeds, reports zero
deletions and leaves the remote state unchanged. -/
theorem claim_C7 (rc : RemoteCache) (i : String)
    (h : ∀ e ∈ rc.entries, e.id ≠ i) :
    enforcedDelete rc (some i) none = (.ok (0, rc), [.deleteByIdReq i]) := by
  unfold enforcedDelete clientDeleteById
  have hfilter : rc.entries.filter (fun e => e.id == i) = [] := by
    rw [List.filter_eq_nil_iff]
    intro a ha
    simp [h a ha]
  have hkeep : rc.entries.filter (fun e => !(e.id == i)) = rc.entries := by
    rw [List.filter_eq_self]
    intro a ha
    simp [h a ha]
  simp [hfilter, hkeep]

/-- Witness for C7: deleting a missing id from a one-entry cache. -/
theorem claim_C7_witness :
    enforcedDelete ⟨[⟨"entry-0", "p", "r", [], 0⟩], 1, 1⟩ (some "missing") none =
      (.ok (0, ⟨[⟨"entry-0", "p", "r", [], 0⟩], 1, 1⟩),
       [.deleteByIdReq "missing"]) :=
  claim_C7 ⟨[⟨"entry-0", "p", "r", [], 0⟩], 1, 1⟩ "missing" (by decide)

/-- Claim C1: when the classifier detects a hard-block category, `enforcedSearch`
and `enforcedStore` return the blocked outcome carrying that category and
issue no Cache Client request, on the read path as well as the write path. -/
theorem claim_C1 (text : String) (hb : (classify text).blocked = true) :
    ∃ c : BlockCategory, (classify text).category = some c ∧
      (∀ (sim : String → String → ℚ) (rc : RemoteCache) (ov : Option ℚ)
        (filt : List (String × String)),
        enforcedSearch sim rc text ov filt = (.blockedOutcome c, [])) ∧
      (∀ (rc : RemoteCache) (response : String)
        (attrs : List (String × String)),
        enforcedStore rc text response attrs = (.blockedOutcome c, [])) := by
  obtain ⟨c, hc⟩ := classify_category_some hb
  exact ⟨c, hc,
    fun sim rc ov filt => by simp [enforcedSearch, hc],
    fun rc response attrs => by simp [enforcedStore, hc]⟩

/-- Witness for C1: a temporal input is blocked on both paths with no
request. -/
theorem claim_C1_witness :
    enforcedSearch (fun _ _ => 1) ⟨[], 0, 0⟩ "remind me tomorrow" none [] =
      (.blockedOutcome .temporal, []) ∧
    enforcedStore ⟨[], 0, 0⟩ "remind me tomorrow" "ok" [] =
      (.blockedOutcome .temporal, []) := by
  obtain ⟨c, hc, hs, hst⟩ := claim_C1 "remind me tomorrow" (by decide)
  have hct : (classify "remind me tomorrow").category = some .temporal := by
    decide
  rw [hct] at hc
  injection hc with hc2
  subst hc2
  exact ⟨hs (fun _ _ => 1) ⟨[], 0, 0⟩ none [], hst ⟨[], 0, 0⟩ "ok" []⟩

lemma effectiveThreshold_bounds (catFloor : ℚ) (h0 : 0 ≤ catFloor)
    (h1 : catFloor ≤ 1) (ov : Option ℚ) :
    0 ≤ effectiveThreshold catFloor ov ∧ effectiveThreshold catFloor ov ≤ 1 ∧
      catFloor ≤ effectiveThreshold catFloor ov := by
  cases ov with
  | none => exact ⟨h0, h1, le_refl _⟩
  | some t =>
      refine ⟨le_max_of_le_right h0, max_le ?_ h1, le_max_right _ _⟩
      exact min_le_right _ _

/-- Claim C6: with an explicit override threshold, the effective search threshold is
clamped to the unit interval and never falls below the configured threshold of
the resolved category (clamp-to-floor, tolerance zero); the search outcome
reports exactly this effective threshold.  Overrides exist on the search path
only: `enforcedStore` takes no threshold at all. -/
theorem claim_C6 (query : String) (t : ℚ)
    (hb : (classify query).blocked = false) :
    ∀ (sim : String → String → ℚ) (rc : RemoteCache)
      (filt : List (String × String)),
      (enforcedSearch sim rc query (some t) filt).1 =
        .results
          (clientSearch sim rc query
            (effectiveThreshold (thresholdOf (resolveCategory query)) (some t))
            filt)
          (resolveCategory query)
          (effectiveThreshold (thresholdOf (resolveCategory query)) (some t)) ∧
      0 ≤ effectiveThreshold (thresholdOf (resolveCategory query)) (some t) ∧
      effectiveThreshold (thresholdOf (resolveCategory query)) (some t) ≤ 1 ∧
      thresholdOf (resolveCategory query) ≤
        effectiveThreshold (thresholdOf (resolveCategory query)) (some t) := by
  intro sim rc filt
  have hc := classify_category_none hb
  obtain ⟨h0, h1, h2⟩ := effectiveThreshold_bounds
    (thresholdOf (resolveCategory query))
    (thresholdOf_nonneg _) (thresholdOf_le_one _) (some t)
  exact ⟨by simp [enforcedSearch, hc, resolve], h0, h1, h2⟩

/-- Witness for C6: an override of 2 on a factual query is clamped into the
unit interval and stays at or above the category floor. -/
theorem claim_C6_witness :
    0 ≤ effectiveThreshold (thresholdOf (resolveCategory "What is Redis?"))
        (some 2) ∧
    effectiveThreshold (thresholdOf (resolveCategory "What is Redis?"))
        (some 2) ≤ 1 ∧
    thresholdOf (resolveCategory "What is Redis?") ≤
      effectiveThreshold (thresholdOf (resolveCategory "What is Redis?"))
        (some 2) := by
  obtain ⟨-, h0, h1, h2⟩ := claim_C6 "What is Redis?" 2 (by decide)
    (fun _ _ => 1) ⟨[], 0, 0⟩ []
  exact ⟨h0, h1, h2⟩

/-- Claim C9: `getOpenClawPath` resolves the skills directory by the fixed priority
`OPENCLAW_CONFIG_DIR`, then `OPENCLAW_HOME`, then the Docker config mount when
running as root, then the home default, and always returns a path whose last
component is `skills`.  A variable is set when it holds a non-empty value (the
script tests truthiness, so an empty value behaves as unset). -/
theorem claim_C9 (pathEx : String → Bool) (env : PostEnv) :
    (env.openclawConfigDir ≠ "" →
      getOpenClawPath pathEx env = pathJoin env.openclawConfigDir "skills") ∧
    (env.openclawConfigDir = "" → env.openclawHome ≠ "" →
      getOpenClawPath pathEx env = pathJoin env.openclawHome "skills") ∧
    (env.openclawConfigDir = "" → env.openclawHome = "" →
      pathEx "/home/node/.openclaw" = true → env.getuid = some 0 →
      getOpenClawPath pathEx env = "/home/node/.openclaw/skills") ∧
    (env.openclawConfigDir = "" → env.openclawHome = "" →
      ¬(pathEx "/home/node/.openclaw" = true ∧ env.getuid = some 0) →
      getOpenClawPath pathEx env =
        pathJoin (pathJoin env.homedir ".openclaw") "skills") ∧
    (∃ p, getOpenClawPath pathEx env = pathJoin p "skills") := by
  refine ⟨?_, ?_, ?_, ?_, ?_⟩
  · intro h1; simp [getOpenClawPath, h1]
  · intro h1 h2; simp [getOpenClawPath, h1, h2]
  · intro h1 h2 h3 h4; simp [getOpenClawPath, h1, h2, h3, h4]
  · intro h1 h2 h3
    have h4 : (pathEx "/home/node/.openclaw" && env.getuid == some 0) = false := by
      cases hpe : pathEx "/home/node/.openclaw" with
      | false => simp
      | true =>
          simp only [Bool.true_and, beq_eq_false_iff_ne, ne_eq]
          intro hu
          exact h3 ⟨hpe, hu⟩
    simp [getOpenClawPath, h1, h2, h4]
  · unfold getOpenClawPath
    split_ifs <;>
      first
        | exact ⟨_, rfl⟩
        | exact ⟨"/home/node/.openclaw", by decide⟩

/-- Witness for C9: the four priorities at concrete environments. -/
theorem claim_C9_witness :
    getOpenClawPath (fun _ => false) ⟨"/cfg", "/oh", some 0, "/root"⟩ =
      pathJoin "/cfg" "skills" ∧
    getOpenClawPath (fun _ => false) ⟨"", "/oh", some 0, "/root"⟩ =
      pathJoin "/oh" "skills" ∧
    getOpenClawPath (fun _ => true) ⟨"", "", some 0, "/root"⟩ =
      "/home/node/.openclaw/skills" ∧
    getOpenClawPath (fun _ => true) ⟨"", "", some 1000, "/root"⟩ =
      pathJoin (pathJoin "/root" ".openclaw") "skills" := by
  refine ⟨?_, ?_, ?_, ?_⟩
  · exact (claim_C9 (fun _ => false) ⟨"/cfg", "/oh", some 0, "/root"⟩).1
      (by decide)
  · exact (claim_C9 (fun _ => false) ⟨"", "/oh", some 0, "/root"⟩).2.1
      rfl (by decide)
  · exact (claim_C9 (fun _ => true) ⟨"", "", some 0, "/root"⟩).2.2.1
      rfl rfl rfl rfl
  · exact (claim_C9 (fun _ => true) ⟨"", "", some 1000, "/root"⟩).2.2.2.1
      rfl rfl (by simp)

/-- Claim C10: `main` of postinstall.js never propagates an exception — an error
escaping the body is caught and turned into two console warnings, after which
`main` returns normally — and when the source skill directory does not exist
`main` only prints the skip message and performs no filesystem action. -/
theorem claim_C10 (oracle : FsAction → Option String) (env : PostEnv)
    (pkgRoot : String) (w : World) :
    (∀ (e : String) (w2 : World),
      mainBody oracle env pkgRoot w = .error (e, w2) →
      mainModel oracle env pkgRoot w =
        logMsg (logMsg w2 ("Warning: Could not install skill: " ++ e))
          "Manually copy from node_modules/openclaw-langcache/skills/") ∧
    (w.pathEx (srcSkillPath pkgRoot) = false →
      mainModel oracle env pkgRoot w =
        logMsg w ("Source skill not found at " ++ srcSkillPath pkgRoot ++
          ", skipping installation") ∧
      (mainModel oracle env pkgRoot w).acts = w.acts) := by
  constructor
  · intro e w2 h
    simp [mainModel, h]
  · intro h
    have hbody : mainBody oracle env pkgRoot w =
        .ok (logMsg w ("Source skill not found at " ++ srcSkillPath pkgRoot ++
          ", skipping installation")) := by
      simp [mainBody, h]
    refine ⟨by simp [mainModel, hbody], ?_⟩
    simp [mainModel, hbody, logMsg]

/-- Witness for C10: a failing mkdir is caught as warnings, and a missing
source directory performs no filesystem action. -/
theorem claim_C10_witness :
    (mainModel (fun _ => some "EACCES") ⟨"", "", none, "/root"⟩ "/pkg"
        ⟨fun s => s == "/pkg/skills/langcache", [], []⟩).msgs =
      ["Warning: Could not install skill: EACCES",
       "Manually copy from node_modules/openclaw-langcache/skills/"] ∧
    (mainModel (fun _ => some "EACCES") ⟨"", "", none, "/root"⟩ "/pkg"
        ⟨fun _ => false, [], []⟩).acts = [] := by
  constructor
  · have h := (claim_C10 (fun _ => some "EACCES") ⟨"", "", none, "/root"⟩
        "/pkg" ⟨fun s => s == "/pkg/skills/langcache", [], []⟩).1 "EACCES"
        ⟨fun s => s == "/pkg/skills/langcache", [], []⟩ rfl
    rw [h]
    rfl
  · exact ((claim_C10 (fun _ => some "EACCES") ⟨"", "", none, "/root"⟩
      "/pkg" ⟨fun _ => false, [], []⟩).2 rfl).2

lemma insertionSort_strict_top (L : List (CacheEntry × ℚ)) (x : CacheEntry × ℚ)
    (hx : x ∈ L) (hmax : ∀ y ∈ L, y ≠ x → y.2 < x.2) :
    ∃ tl, List.insertionSort scoreGE L = x :: tl := by
  have hs := List.sorted_insertionSort scoreGE L
  have hperm := List.perm_insertionSort scoreGE L
  have hx2 : x ∈ List.insertionSort scoreGE L := hperm.mem_iff.mpr hx
  cases hsort : List.insertionSort scoreGE L with
  | nil => rw [hsort] at hx2; cases hx2
  | cons hd tl =>
      rw [hsort] at hs hx2 hperm
      have hhd : hd ∈ L := hperm.mem_iff.mp (List.mem_cons_self hd tl)
      by_cases heq : hd = x
      · exact ⟨tl, by rw [heq]⟩
      · exfalso
        have hlt : hd.2 < x.2 := hmax hd hhd heq
        rcases List.mem_cons.mp hx2 with hx3 | hx3
        · exact heq hx3.symm
        · have hge : x.2 ≤ hd.2 := (List.sorted_cons.mp hs).1 x hx3
          exact absurd hlt (not_lt.mpr hge)

lemma clientSearch_store_top (sim : String → String → ℚ) (rc : RemoteCache)
    (p r : String) (attrs2 : List (String × String)) (θ : ℚ)
    (hθ1 : θ ≤ 1) (hself : sim p p = 1)
    (hothers : ∀ e ∈ rc.entries, sim p e.prompt < 1) :
    ∃ tl, clientSearch sim (clientStore rc p r attrs2).2 p θ [] =
      (⟨"entry-" ++ toString rc.nextId, p, r, attrs2, rc.clock⟩, 1) :: tl := by
  simp only [clientSearch, clientStore]
  have hnew_pred :
      (attrsMatch []
          (⟨"entry-" ++ toString rc.nextId, p, r, attrs2, rc.clock⟩ : CacheEntry) &&
        decide (θ ≤ sim p
          (⟨"entry-" ++ toString rc.nextId, p, r, attrs2, rc.clock⟩ : CacheEntry).prompt))
        = true := by
    simp [attrsMatch, hself, hθ1]
  rw [List.filter_append, List.map_append]
  rw [show List.filter
        (fun e => attrsMatch [] e && decide (θ ≤ sim p e.prompt))
        [(⟨"entry-" ++ toString rc.nextId, p, r, attrs2, rc.clock⟩ : CacheEntry)] =
      [(⟨"entry-" ++ toString rc.nextId, p, r, attrs2, rc.clock⟩ : CacheEntry)] by
    simp [hnew_pred]]
  apply insertionSort_strict_top
  · refine List.mem_append_right _ ?_
    simp [hself]
  · intro y hy hne
    rcases List.mem_append.mp hy with hy1 | hy1
    · obtain ⟨e, he, rfl⟩ := List.mem_map.mp hy1
      simpa using hothers e (List.mem_of_mem_filter he)
    · simp only [List.map_cons, List.map_nil, List.mem_singleton] at hy1
      rw [hself] at hy1
      exact absurd hy1 hne

/-- Claim C8: storing a non-blocked prompt/response pair and then searching with the
identical prompt at the resolved category threshold returns the stored entry
as the top match, under the assumption that the remote service behaves as a
similarity index (the identical prompt has similarity 1, every previously
stored entry is strictly less similar). -/
theorem claim_C8 (sim : String → String → ℚ) (rc : RemoteCache)
    (prompt response : String) (attrs : List (String × String))
    (hp : (classify prompt).blocked = false)
    (hr : (classify response).blocked = false)
    (hself : sim prompt prompt = 1)
    (hothers : ∀ e ∈ rc.entries, sim prompt e.prompt < 1) :
    ∃ (i : String) (rc2 : RemoteCache),
      (enforcedStore rc prompt response attrs).1 = .stored i rc2 ∧
      ∃ tl,
        (enforcedSearch sim rc2 prompt none []).1 =
          .results
            ((⟨i, prompt, response,
                setAttr attrs "category" (categoryName (resolveCategory prompt)),
                rc.clock⟩, 1) :: tl)
            (resolveCategory prompt)
            (thresholdOf (resolveCategory prompt)) := by
  have hcp := classify_category_none hp
  have hcr := classify_category_none hr
  obtain ⟨tl, htl⟩ := clientSearch_store_top sim rc prompt response
    (setAttr attrs "category" (categoryName (resolveCategory prompt)))
    (thresholdOf (resolveCategory prompt)) (thresholdOf_le_one _) hself hothers
  refine ⟨"entry-" ++ toString rc.nextId,
    (clientStore rc prompt response
      (setAttr attrs "category" (categoryName (resolveCategory prompt)))).2,
    ?_, tl, ?_⟩
  · simp [enforcedStore, hcp, hcr, resolve, clientStore]
  · have h1 : (enforcedSearch sim
        (clientStore rc prompt response
          (setAttr attrs "category" (categoryName (resolveCategory prompt)))).2
        prompt none []).1 =
        .results
          (clientSearch sim
            (clientStore rc prompt response
              (setAttr attrs "category" (categoryName (resolveCategory prompt)))).2
            prompt (thresholdOf (resolveCategory prompt)) [])
          (resolveCategory prompt)
          (thresholdOf (resolveCategory prompt)) := by
      simp [enforcedSearch, hcp, resolve, effectiveThreshold]
    rw [h1, htl]

/-- Witness for C8: round trip of a factual question through an empty remote
cache, with the similarity index that rates equal strings 1 and others 0. -/
theorem claim_C8_witness :
    ∃ (i : String) (rc2 : RemoteCache),
      (enforcedStore ⟨[], 0, 0⟩ "What is Redis?"
          "Redis is an in-memory data store" []).1 = .stored i rc2 ∧
      ∃ tl,
        (enforcedSearch (fun a b => if a == b then (1 : ℚ) else 0) rc2
            "What is Redis?" none []).1 =
          .results
            ((⟨i, "What is Redis?", "Redis is an in-memory data store",
                setAttr [] "category"
                  (categoryName (resolveCategory "What is Redis?")),
                (⟨[], 0, 0⟩ : RemoteCache).clock⟩, 1) :: tl)
            (resolveCategory "What is Redis?")
            (thresholdOf (resolveCategory "What is Redis?")) :=
  claim_C8 (fun a b => if a == b then (1 : ℚ) else 0) ⟨[], 0, 0⟩
    "What is Redis?" "Redis is an in-memory data store" []
    (by decide) (by decide) (by simp) (by simp)


end LangCache
